import Mathlib

/-!
Verification development for the salon business dashboard
(`app.py`, `s3_utils.py`).  The pandas/plotly pipeline is shallowly
embedded: tables become lists of records, pandas float arithmetic
becomes a tagged value type `FVal` (finite rational, +inf, -inf, NaN)
mirroring IEEE-754 special-value propagation, Python string formatting
becomes explicit string builders, and the S3 client becomes a
function from bucket/key to a response.
-/

namespace Dashboard

/-- Pandas numeric cell values: a finite rational, `+inf`, `-inf` or `NaN`,
mirroring the IEEE-754 doubles pandas computes with. -/
inductive FVal where
  | fin (q : ℚ)
  | pinf
  | ninf
  | nan
deriving DecidableEq

/-- IEEE-754 subtraction on `FVal` (the cases arising for doubles). -/
def FVal.sub : FVal → FVal → FVal
  | .fin a, .fin b => .fin (a - b)
  | .fin _, .pinf => .ninf
  | .fin _, .ninf => .pinf
  | .pinf, .fin _ => .pinf
  | .ninf, .fin _ => .ninf
  | .pinf, .pinf => .nan
  | .pinf, .ninf => .pinf
  | .ninf, .pinf => .ninf
  | .ninf, .ninf => .nan
  | .nan, _ => .nan
  | _, .nan => .nan

/-- IEEE-754 multiplication on `FVal`. -/
def FVal.mul : FVal → FVal → FVal
  | .fin a, .fin b => .fin (a * b)
  | .fin a, .pinf => if 0 < a then .pinf else if a < 0 then .ninf else .nan
  | .fin a, .ninf => if 0 < a then .ninf else if a < 0 then .pinf else .nan
  | .pinf, .fin b => if 0 < b then .pinf else if b < 0 then .ninf else .nan
  | .ninf, .fin b => if 0 < b then .ninf else if b < 0 then .pinf else .nan
  | .pinf, .pinf => .pinf
  | .pinf, .ninf => .ninf
  | .ninf, .pinf => .ninf
  | .ninf, .ninf => .pinf
  | .nan, _ => .nan
  | _, .nan => .nan

/-- IEEE-754 division on `FVal`: a nonzero finite value divided by zero is
a signed infinity, `0/0` is `NaN` — exactly what a pandas column division
produces on a zero denominator. -/
def FVal.div : FVal → FVal → FVal
  | .fin a, .fin b =>
    if b = 0 then (if 0 < a then .pinf else if a < 0 then .ninf else .nan)
    else .fin (a / b)
  | .fin _, .pinf => .fin 0
  | .fin _, .ninf => .fin 0
  | .pinf, .fin b => if b < 0 then .ninf else .pinf
  | .ninf, .fin b => if b < 0 then .pinf else .ninf
  | .pinf, .pinf => .nan
  | .pinf, .ninf => .nan
  | .ninf, .pinf => .nan
  | .ninf, .ninf => .nan
  | .nan, _ => .nan
  | _, .nan => .nan

/-- Python `f"{x:.2f}"` for a finite value: fixed two decimal places.
The scaled magnitude `⌊|q| * 100 + 1/2⌋` is written in integer
arithmetic on `q.num`/`q.den` (the two agree since `q.den > 0`). -/
def fmtFix2 (q : ℚ) : String :=
  let n : ℤ := Int.fdiv (200 * |q.num| + q.den) (2 * q.den)
  let fracStr := if n % 100 < 10 then "0" ++ toString (n % 100) else toString (n % 100)
  (if q < 0 then "-" else "") ++ toString (n / 100) ++ "." ++ fracStr

/-- `⌊q + 1/2⌋` in integer arithmetic on `q.num`/`q.den`: the rounding used
by Python `f"{x:,.0f}"`. -/
def round0 (q : ℚ) : ℤ :=
  Int.fdiv (2 * q.num + q.den) (2 * q.den)

/-- Insert thousands separators into a digit string, as Python `{:,}` does. -/
def commaGroup (digits : List Char) : List Char :=
  (((digits.reverse.toChunks 3).intersperse [',']).flatten).reverse

/-- Python `f"₹{x:,.0f}"` applied to a pandas value (app.py lines 508-511):
`float("inf")` renders as `"₹inf"`, `NaN` as `"₹nan"`. -/
def fmtINR0 (f : FVal) : String :=
  match f with
  | .fin q =>
    let n := round0 q
    "₹" ++ (if n < 0 then "-" else "") ++ String.mk (commaGroup (toString n.natAbs).data)
  | .pinf => "₹inf"
  | .ninf => "₹-inf"
  | .nan => "₹nan"

/-- Python `f"{x:.2f}%"` applied to a pandas value: `float("inf")` renders
as `"inf"`, `NaN` as `"nan"` (app.py line 813-814). -/
def fmtPct2 (f : FVal) : String :=
  match f with
  | .fin q => fmtFix2 q ++ "%"
  | .pinf => "inf%"
  | .ninf => "-inf%"
  | .nan => "nan%"

/-- app.py lines 640-642: the Center Growth Analysis display formats a
growth value with `f"{x:.2f}%" if not pd.isna(x) and not np.isinf(x) else "N/A"`. -/
def fmtCenterGrowth (f : FVal) : String :=
  match f with
  | .fin q => fmtFix2 q ++ "%"
  | _ => "N/A"

/-- app.py lines 593-597 (Center Growth Analysis): `growth_pct` is the
percentage formula when `prev_sales > 0` and the explicit `float("inf")`
sentinel otherwise. -/
def growth_pct (prev_sales current_sales : ℚ) : FVal :=
  if 0 < prev_sales then .fin ((current_sales / prev_sales - 1) * 100) else .pinf

/-- app.py lines 776-777 (and 725-726, 854-855, 923-924): the pandas column
formula `((compare / base) - 1) * 100` with no zero-denominator guard,
evaluated in IEEE-754 arithmetic. -/
def Growth_Percent (base compare : ℚ) : FVal :=
  (((FVal.fin compare).div (FVal.fin base)).sub (FVal.fin 1)).mul (FVal.fin 100)

/-- app.py lines 774-775 (and 723-724): `Growth_Amount = compare - base`. -/
def Growth_Amount (base compare : ℚ) : ℚ :=
  compare - base

/-- One row of the processed sales table (columns used by the dashboard:
`SALON NAMES`, `BRAND`, `Year`, `Month`, `MTD SALES`, `MTD BILLS`). -/
structure SalesRec where
  salon : String
  brand : String
  year : String
  month : String
  mtdSales : ℚ
  mtdBills : ℚ
deriving DecidableEq

/-- app.py line 89: `filtered_data['MTD SALES'].sum()`. -/
def totalSalesOf (rows : List SalesRec) : ℚ :=
  (rows.map (·.mtdSales)).sum

/-- app.py line 93: `filtered_data['MTD BILLS'].sum()`. -/
def totalBillsOf (rows : List SalesRec) : ℚ :=
  (rows.map (·.mtdBills)).sum

/-- app.py line 97: `avg_bill_value = total_sales / total_bills if total_bills > 0 else 0`. -/
def avg_bill_value (rows : List SalesRec) : ℚ :=
  if 0 < totalBillsOf rows then totalSalesOf rows / totalBillsOf rows else 0

/-- app.py lines 692-693 and 712-715: restrict to one year, group by
`SALON NAMES` and sum `MTD SALES`; this is the summed sales of one salon
in one year. -/
def salonYearSales (rows : List SalesRec) (year salon : String) : ℚ :=
  totalSalesOf ((rows.filter (fun r => r.year = year)).filter (fun r => r.salon = salon))

/-- app.py lines 723-724: `Growth_Amount` of a salon between 2023 and 2025. -/
def salonGrowthAmount (rows : List SalesRec) (salon : String) : ℚ :=
  Growth_Amount (salonYearSales rows "2023" salon) (salonYearSales rows "2025" salon)

/-- app.py lines 725-726: `Growth_Percent` of a salon between 2023 and 2025. -/
def salonGrowthPercent (rows : List SalesRec) (salon : String) : FVal :=
  Growth_Percent (salonYearSales rows "2023" salon) (salonYearSales rows "2025" salon)

/-- One row of the processed service table (columns used by the dashboard:
`Center Name`, `Service_Type`, `Category`, `Year`, `Total_Sales`,
`Transaction_Count`). -/
structure ServiceRec where
  centerName : String
  serviceType : String
  category : String
  year : String
  totalSales : ℚ
  transactionCount : ℚ
deriving DecidableEq

/-- app.py lines 504-505 (and 528-529): the unguarded pandas column division
`Total_Sales / Transaction_Count`, in IEEE-754 arithmetic. -/
def Average_Transaction (totalSales transactionCount : ℚ) : FVal :=
  (FVal.fin totalSales).div (FVal.fin transactionCount)

/-- One row of the displayed Service Category Metrics table
(app.py lines 499-517): sales and average are formatted with
`f"₹{x:,.0f}"`, the transaction count is left numeric. -/
structure CategoryDetailsRow where
  serviceCategory : String
  totalSalesText : String
  transactionCount : ℚ
  averageTransactionText : String
deriving DecidableEq

/-- The summed `Total_Sales` of one `Service_Type` group (app.py 499-502). -/
def serviceTypeSales (rows : List ServiceRec) (key : String) : ℚ :=
  ((rows.filter (fun r => r.serviceType = key)).map (·.totalSales)).sum

/-- The summed `Transaction_Count` of one `Service_Type` group (app.py 499-502). -/
def serviceTypeCount (rows : List ServiceRec) (key : String) : ℚ :=
  ((rows.filter (fun r => r.serviceType = key)).map (·.transactionCount)).sum

/-- app.py lines 499-511: one aggregate row of `category_details`: the
average column is always computed and always formatted, with no guard on a
zero transaction count. -/
def categoryDetailsRow (rows : List ServiceRec) (key : String) : CategoryDetailsRow :=
  { serviceCategory := key
    totalSalesText := fmtINR0 (.fin (serviceTypeSales rows key))
    transactionCount := serviceTypeCount rows key
    averageTransactionText :=
      fmtINR0 (Average_Transaction (serviceTypeSales rows key) (serviceTypeCount rows key)) }

/-- Python string comparison: lexicographic on the code points.  This is
the order Lean's `String` instances denote; the `List Char` form is used
so that terms evaluate. -/
def pyStrLe (a b : String) : Bool :=
  decide (a.data ≤ b.data)

/-- Python strict string comparison, lexicographic on the code points. -/
def pyStrLt (a b : String) : Bool :=
  decide (a.data < b.data)

/-- app.py lines 499-517: the displayed Service Category Metrics table,
one row per distinct `Service_Type` (pandas `groupby` sorts the keys
ascending). -/
def category_details (rows : List ServiceRec) : List CategoryDetailsRow :=
  (((rows.map (·.serviceType)).dedup).mergeSort pyStrLe).map
    (categoryDetailsRow rows)

/-- One row of the Hair/Skin/Spa/Products category breakdown file
(columns `Item Category`, `Business Unit`, `Total_Sales`). -/
structure CatRec where
  itemCategory : String
  businessUnit : String
  totalSales : ℚ
deriving DecidableEq

/-- app.py lines 319-320:
`category_data.sort_values('Total_Sales', ascending=False).head(15)`.
The sort key is `Total_Sales` alone, descending; rows with equal sales
keep their input order (pandas' default sort runs an insertion sort on
partitions below 16 elements, which is stable, and no further key is
given). -/
def top_categories (rows : List CatRec) : List CatRec :=
  (rows.mergeSort (fun a b => decide (b.totalSales ≤ a.totalSales))).take 15

/-- app.py lines 132-133 (also 165-166, 858-859): the canonical month list. -/
def month_order : List String :=
  ["January", "February", "March", "April", "May", "June",
   "July", "August", "September", "October", "November", "December"]

/-- The pandas `Categorical` code of a month against `month_order`: its
index in the canonical list; an unrecognized month maps past the end
(pandas sorts its `NaN` code last). -/
def monthIndex (m : String) : ℕ :=
  month_order.indexOf m

/-- app.py lines 128-136: the Monthly Sales Trend rows sorted by
`Month_Sorted`, i.e. by canonical calendar position. -/
def monthlySorted (rows : List SalesRec) : List SalesRec :=
  rows.mergeSort (fun a b => decide (monthIndex a.month ≤ monthIndex b.month))

/-- The category axis a plotly bar chart shows when no `categoryorder` is
set: the default is trace order, the order of first appearance of each
distinct x value in the data. -/
def traceOrder (xs : List String) : List String :=
  xs.foldl (fun acc x => if x ∈ acc then acc else acc ++ [x]) []

/-- app.py lines 961 and 969-978: the T NAGAR yearly-comparison bar chart
passes the filtered rows straight to `px.bar` with `x='Month'` and no
month sorting, so its month axis is the first-appearance order of the
months in the data. -/
def tNagarMonthAxis (rows : List SalesRec) : List String :=
  traceOrder ((rows.filter (fun r => r.salon = "T NAGAR")).map (·.month))

/-- app.py lines 686 and 753: the Base Year choices are
`sorted(years)[:-1]`. -/
def baseYearOptions (years : List String) : List String :=
  ((years.dedup).mergeSort pyStrLe).dropLast

/-- app.py lines 756-757: the Comparison Year choices are
`[y for y in years if y > base_year]`. -/
def compareYearOptions (years : List String) (base_year : String) : List String :=
  ((years.dedup).mergeSort pyStrLe).filter (fun y => pyStrLt base_year y)

/-- State seen by `load_data` (app.py lines 29-41): the S3 object behind
`processed_sales_data.csv`, the `st.cache_data` memo entry for
`load_data` in this process, and how often the preprocessing step has
run in this process. -/
structure CacheState (α : Type) where
  store : Option α
  memo : Option α
  computeCount : ℕ
deriving DecidableEq

/-- app.py lines 29-41: `load_data` under `@st.cache_data`.  A memo hit
returns the memoized table.  Otherwise the body runs: if the processed
file exists in S3 it is read back, else the raw data is preprocessed.
Modelled from the spec: `preprocess_sales_data` lives in
`process_data.py`, which is not part of the sources; per spec §4.3 the
miss path invokes the compute step, persists its result, and returns it,
so the miss branch stores `compute` and bumps the invocation count. -/
def load_data {α : Type} (compute : α) (s : CacheState α) : α × CacheState α :=
  match s.memo with
  | some t => (t, s)
  | none =>
    match s.store with
    | some t => (t, { s with memo := some t })
    | none =>
      (compute,
       { store := some compute, memo := some compute, computeCount := s.computeCount + 1 })

/-- A parsed CSV table: a header row and data rows, each a list of cells;
cells are lists of characters. -/
structure CsvTable where
  header : List (List Char)
  rows : List (List (List Char))
deriving DecidableEq

/-- Join cells with a separator character (one CSV line). -/
def joinSep (sep : Char) : List (List Char) → List Char
  | [] => []
  | [c] => c
  | c :: c2 :: cs => c ++ sep :: joinSep sep (c2 :: cs)

/-- `df.to_csv(index=False)` (s3_utils.py line 38): the header line then
one line per row, comma-separated cells, each line terminated by a
newline, and no index column. -/
def to_csv (t : CsvTable) : String :=
  String.mk
    (((joinSep ',' t.header :: t.rows.map (joinSep ',')).map (fun l => l ++ ['\n'])).flatten)

/-- Split a character list at every occurrence of a separator. -/
def splitOnChar (sep : Char) : List Char → List (List Char)
  | [] => [[]]
  | c :: cs =>
    match splitOnChar sep cs with
    | [] => [[]]
    | h :: t => if c = sep then [] :: h :: t else (c :: h) :: t

/-- `pd.read_csv` on a CSV body (s3_utils.py line 26): split into lines,
skip blank lines (`skip_blank_lines=True`, which also absorbs the
trailing newline), take the first line as the header; an entirely empty
input raises (`EmptyDataError`), modelled as `none`. -/
def read_csv (body : String) : Option CsvTable :=
  match (splitOnChar '\n' body.data).filter (fun l => l ≠ []) with
  | [] => none
  | h :: rs => some { header := splitOnChar ',' h, rows := rs.map (splitOnChar ',') }

/-- The outcome of `boto3` `get_object`: a body on success, otherwise a
`ClientError` carrying an error code (`"NoSuchKey"` exactly when the
requested key is absent from the bucket). -/
inductive S3Response where
  | ok (body : String)
  | clientError (code : String)
deriving DecidableEq

/-- The outcome of `read_csv_from_s3` (s3_utils.py lines 20-31): the
parsed table, a `FileNotFoundError`, the generic storage `Exception`, or
a propagated pandas parse error (not caught by the `except` clause). -/
inductive ReadResult where
  | table (t : CsvTable)
  | parseFailure
  | notFound (msg : String)
  | storageError (code : String)
deriving DecidableEq

/-- s3_utils.py lines 20-31: fetch the object; on `ClientError` with code
`NoSuchKey` raise `FileNotFoundError` with the file/bucket message, on
any other `ClientError` raise the generic storage `Exception`; on
success parse the body. -/
def read_csv_from_s3 (backend : String → String → S3Response)
    (bucket_name file_key : String) : ReadResult :=
  match backend bucket_name file_key with
  | .ok body =>
    match read_csv body with
    | some t => .table t
    | none => .parseFailure
  | .clientError code =>
    if code = "NoSuchKey" then
      .notFound ("File " ++ file_key ++ " not found in bucket " ++ bucket_name)
    else
      .storageError code

/-- An S3 bucket namespace: bucket and key to stored body. -/
def Store : Type :=
  String → String → Option String

/-- `put_object` (s3_utils.py lines 39-43): overwrite one bucket/key. -/
def putObject (s : Store) (bucket key body : String) : Store :=
  fun b k => if b = bucket ∧ k = key then some body else s b k

/-- s3_utils.py lines 33-45: serialize with `to_csv(index=False)` and
`put_object` the text. -/
def save_df_to_s3 (df : CsvTable) (s : Store) (bucket_name file_key : String) : Store :=
  putObject s bucket_name file_key (to_csv df)

/-- The `get_object` behaviour over a `Store`: the body when the key is
present, the `NoSuchKey` `ClientError` when it is absent. -/
def backendOf (s : Store) : String → String → S3Response :=
  fun b k =>
    match s b k with
    | some body => .ok body
    | none => .clientError "NoSuchKey"

/-- A backend whose every request fails with a non-missing-key error. -/
def exBackendDenied : String → String → S3Response :=
  fun _ _ => .clientError "AccessDenied"

/-- A backend that always serves one fixed two-line CSV body. -/
def exBackendCsv : String → String → S3Response :=
  fun _ _ => .ok "A,B\n1,2\n"

/-- A bucket namespace holding no objects. -/
def exEmptyStore : Store := fun _ _ => none

/-- A two-row sales table: outlet T NAGAR with 100000 of sales in 2023 and
150000 in 2025. -/
def exSalesRows : List SalesRec :=
  [⟨"T NAGAR", "NAILS N BEYOND", "2023", "March", 100000, 120⟩,
   ⟨"T NAGAR", "NAILS N BEYOND", "2025", "March", 150000, 150⟩]

/-- A one-row service table whose only group has a zero transaction count
but nonzero sales. -/
def exServiceRows : List ServiceRec :=
  [⟨"Chennai", "Spa", "Service", "2024", 100, 0⟩]

/-- A two-row category table with tied sales, names in descending order. -/
def exCatRows : List CatRec :=
  [⟨"B", "Hair", 10⟩, ⟨"A", "Hair", 10⟩]

/-- A two-row T NAGAR table whose months appear as March then January. -/
def exTNagarRows : List SalesRec :=
  [⟨"T NAGAR", "GREEN TRENDS", "2024", "March", 5, 1⟩,
   ⟨"T NAGAR", "GREEN TRENDS", "2024", "January", 7, 2⟩]

/-! ## Theorems -/

/-- C1 counterexample: in the Year-to-Year Comparison's growth table
(app.py lines 776-777 and 813-814) a base-period sum of 0 with a
compare-period sum of 100 is formatted as the string `"inf%"`, not as
`"N/A"`: a float infinity does reach user-facing formatted growth
output. -/
theorem c1_counterexample :
    fmtPct2 (Growth_Percent 0 100) = "inf%" ∧ fmtPct2 (Growth_Percent 0 100) ≠ "N/A" := by
  constructor
  · decide
  · decide

/-- C1 (amended): a zero base with nonzero compare never raises in either
growth path: the Center Growth Analysis path (app.py lines 594-597,
640-642) produces the infinity sentinel and formats it as `"N/A"`, while
the Year-to-Year path (lines 776-777, 813-814) produces float infinity
and formats it as `"inf%"` in the displayed growth table. -/
theorem c1_amended (prev cur base cmp : ℚ) (h1 : ¬ 0 < prev) (h2 : base = 0) (h3 : 0 < cmp) :
    growth_pct prev cur = FVal.pinf ∧
    fmtCenterGrowth (growth_pct prev cur) = "N/A" ∧
    Growth_Percent base cmp = FVal.pinf ∧
    fmtPct2 (Growth_Percent base cmp) = "inf%" := by
  subst h2
  have hg : growth_pct prev cur = FVal.pinf := by simp [growth_pct, h1]
  have hG : Growth_Percent 0 cmp = FVal.pinf := by
    simp [Growth_Percent, FVal.div, FVal.sub, FVal.mul, h3, h3.ne.symm]
  exact ⟨hg, by rw [hg]; decide, hG, by rw [hG]; decide⟩

/-- C1 witness: the amended statement at base 0 and compare 100. -/
theorem c1_amended_witness :
    growth_pct 0 5 = FVal.pinf ∧ fmtCenterGrowth (growth_pct 0 5) = "N/A" ∧
    Growth_Percent 0 100 = FVal.pinf ∧ fmtPct2 (Growth_Percent 0 100) = "inf%" :=
  c1_amended 0 5 0 100 (by norm_num) rfl (by norm_num)

/-- C2: whenever the base-period sum is positive, the growth amount is
`compare - base` and the growth percent is the finite value
`(compare / base - 1) * 100` (app.py lines 723-726 and 774-777). -/
theorem c2_growth_formula (base compare : ℚ) (hb : 0 < base) :
    Growth_Amount base compare = compare - base ∧
    Growth_Percent base compare = FVal.fin ((compare / base - 1) * 100) := by
  refine ⟨rfl, ?_⟩
  simp [Growth_Percent, FVal.div, FVal.sub, FVal.mul, hb.ne.symm]

/-- C2 witness: growth from 100 to 150 is amount 50 and percent 50, and on
the concrete two-row table the T NAGAR outlet's 2023-to-2025 growth is
amount 50000 and percent 50. -/
theorem c2_growth_formula_witness :
    Growth_Amount 100 150 = 50 ∧ Growth_Percent 100 150 = FVal.fin 50 ∧
    salonGrowthAmount exSalesRows "T NAGAR" = 50000 ∧
    salonGrowthPercent exSalesRows "T NAGAR" = FVal.fin 50 := by
  have h23 : salonYearSales exSalesRows "2023" "T NAGAR" = 100000 := by
    simp [salonYearSales, totalSalesOf, exSalesRows, List.filter]
  have h25 : salonYearSales exSalesRows "2025" "T NAGAR" = 150000 := by
    simp [salonYearSales, totalSalesOf, exSalesRows, List.filter]
  have h1 := c2_growth_formula 100 150 (by norm_num)
  have h2 := c2_growth_formula 100000 150000 (by norm_num)
  refine ⟨by norm_num [Growth_Amount], ?_, ?_, ?_⟩
  · rw [h1.2]; norm_num
  · unfold salonGrowthAmount
    rw [h23, h25, h2.1]
    norm_num
  · unfold salonGrowthPercent
    rw [h23, h25, h2.2]
    norm_num

/-- C3: on every filtered sales table the average bill value is total
sales over total bills when the bill total is positive, and exactly 0
when the bill total is 0; the zero case takes the guarded branch, so no
division error can arise (app.py lines 96-98). -/
theorem c3_avg_bill_value (rows : List SalesRec) :
    (0 < totalBillsOf rows → avg_bill_value rows = totalSalesOf rows / totalBillsOf rows) ∧
    (totalBillsOf rows = 0 → avg_bill_value rows = 0) := by
  constructor
  · intro h
    simp [avg_bill_value, h]
  · intro h
    simp [avg_bill_value, h]

/-- C3 witness: a one-row table with 10 of sales and 2 bills averages 5;
with 0 bills the average is 0. -/
theorem c3_avg_bill_value_witness :
    avg_bill_value [⟨"T NAGAR", "GREEN TRENDS", "2024", "May", 10, 2⟩] = 5 ∧
    avg_bill_value [⟨"T NAGAR", "GREEN TRENDS", "2024", "May", 10, 0⟩] = 0 := by
  constructor
  · have h := (c3_avg_bill_value [⟨"T NAGAR", "GREEN TRENDS", "2024", "May", 10, 2⟩]).1
      (by norm_num [totalBillsOf])
    rw [h]
    norm_num [totalSalesOf, totalBillsOf]
  · exact (c3_avg_bill_value [⟨"T NAGAR", "GREEN TRENDS", "2024", "May", 10, 0⟩]).2
      (by norm_num [totalBillsOf])

/-- C4 counterexample: on a service table whose only category has summed
transaction count 0 and sales 100, the displayed Service Category
Metrics table still contains an average-transaction entry — the string
`"₹inf"` — so the derived metric is computed unconditionally and shown,
not undefined/omitted (app.py lines 499-511). -/
theorem c4_counterexample :
    Average_Transaction 100 0 = FVal.pinf ∧
    category_details exServiceRows =
      [{ serviceCategory := "Spa", totalSalesText := "₹100", transactionCount := 0,
         averageTransactionText := "₹inf" }] := by
  have havg : Average_Transaction 100 0 = FVal.pinf := by
    simp [Average_Transaction, FVal.div]
  refine ⟨havg, ?_⟩
  have hs : serviceTypeSales exServiceRows "Spa" = 100 := by
    simp [serviceTypeSales, exServiceRows, List.filter]
  have hc : serviceTypeCount exServiceRows "Spa" = 0 := by
    simp [serviceTypeCount, exServiceRows, List.filter]
  have hkeys : ((exServiceRows.map (·.serviceType)).dedup).mergeSort pyStrLe = ["Spa"] := by
    simp [exServiceRows]
  rw [category_details, hkeys]
  simp only [List.map_cons, List.map_nil, categoryDetailsRow]
  rw [hs, hc, havg]
  decide

/-- C4 (amended): the average transaction is the unguarded quotient
`Total_Sales / Transaction_Count`: for a positive count it is the finite
quotient, and for a zero count with positive sales it is float infinity,
which is formatted into the displayed table as `"₹inf"` rather than
omitted; no exception is raised either way (app.py lines 504-511 and
528-529). -/
theorem c4_amended (sales count : ℚ) :
    (0 < count → Average_Transaction sales count = FVal.fin (sales / count)) ∧
    (count = 0 → 0 < sales →
      Average_Transaction sales count = FVal.pinf ∧
      fmtINR0 (Average_Transaction sales count) = "₹inf") := by
  constructor
  · intro h
    simp [Average_Transaction, FVal.div, h.ne.symm]
  · intro h0 hs
    have h : Average_Transaction sales count = FVal.pinf := by
      simp [Average_Transaction, FVal.div, h0, hs]
    exact ⟨h, by rw [h]; decide⟩

/-- C4 witness: the amended statement at sales 100 with counts 5 and 0. -/
theorem c4_amended_witness :
    Average_Transaction 100 5 = FVal.fin 20 ∧
    Average_Transaction 100 0 = FVal.pinf ∧
    fmtINR0 (Average_Transaction 100 0) = "₹inf" := by
  have h1 := (c4_amended 100 5).1 (by norm_num)
  have h2 := (c4_amended 100 0).2 rfl (by norm_num)
  refine ⟨?_, h2.1, h2.2⟩
  rw [h1]
  norm_num

/-- C5 counterexample: on a two-row category table whose rows carry equal
sales 10 with names "B" before "A", top-15 selection returns "B" before
"A" even though "A" < "B": ties are not broken by ascending category
name (app.py lines 319-320 sort by `Total_Sales` alone). -/
theorem c5_counterexample :
    (top_categories exCatRows).map (·.itemCategory) = ["B", "A"] ∧
    (exCatRows.map (·.totalSales)) = [10, 10] ∧
    "A" < "B" := by
  refine ⟨?_, rfl, ?_⟩
  · simp [top_categories, exCatRows, List.mergeSort, List.merge]
  · rw [String.lt_iff_toList_lt]
    decide

/-- C5 (amended): top-15 selection sorts descending by the sales metric
alone — the result is descending-sorted by sales, is a sub-permutation
of the input of length at most 15, and being a pure function is
identical across repeated calls — but tied rows keep their input order
rather than being reordered by ascending category name. -/
theorem c5_amended (rows : List CatRec) :
    List.Sorted (fun a b => b.totalSales ≤ a.totalSales) (top_categories rows) ∧
    (top_categories rows).Subperm rows ∧
    (top_categories rows).length ≤ 15 := by
  have htrans : ∀ a b c : CatRec, (fun a b => decide (b.totalSales ≤ a.totalSales)) a b →
      (fun a b => decide (b.totalSales ≤ a.totalSales)) b c →
      (fun a b => decide (b.totalSales ≤ a.totalSales)) a c := by
    intro a b c h1 h2
    simp only [decide_eq_true_eq] at h1 h2 ⊢
    exact le_trans h2 h1
  have htotal : ∀ a b : CatRec, ((fun a b => decide (b.totalSales ≤ a.totalSales)) a b ||
      (fun a b => decide (b.totalSales ≤ a.totalSales)) b a) := by
    intro a b
    simp only [Bool.or_eq_true, decide_eq_true_eq]
    exact le_total b.totalSales a.totalSales
  have hp := List.sorted_mergeSort htrans htotal rows
  have hsub : List.Sublist (top_categories rows)
      (rows.mergeSort (fun a b => decide (b.totalSales ≤ a.totalSales))) :=
    List.take_sublist _ _
  refine ⟨?_, ?_, ?_⟩
  · exact (hp.sublist hsub).imp (fun h => by simpa using h)
  · exact hsub.subperm.trans (List.mergeSort_perm rows _).subperm
  · exact List.length_take_le _ _

/-- C7 counterexample: the T NAGAR yearly-comparison bar chart (app.py
lines 969-978) passes months in data order: on a table whose rows appear
as March then January, its month axis is `["March", "January"]`, not the
canonical calendar order — so not every month-keyed chart sorts months
chronologically. -/
theorem c7_counterexample :
    tNagarMonthAxis exTNagarRows = ["March", "January"] ∧
    monthIndex "January" < monthIndex "March" ∧
    ¬ List.Sorted (fun a b => monthIndex a ≤ monthIndex b) (tNagarMonthAxis exTNagarRows) := by
  have hx : tNagarMonthAxis exTNagarRows = ["March", "January"] := by
    simp [tNagarMonthAxis, exTNagarRows, traceOrder, List.filter]
  refine ⟨hx, by decide, ?_⟩
  intro h
  rw [hx] at h
  have := List.rel_of_sorted_cons h "January" (by simp)
  revert this
  decide

/-- C7 (amended): the displays that build a `Month_Sorted` categorical —
the monthly sales trend (app.py lines 128-136), the outlet yearly
comparison (161-169) and the month-by-month growth (846-862) — are
sorted by canonical calendar position (a permutation of their input
rows), but the T NAGAR chart (969-978) uses data order and the month
filter dropdown (line 70) sorts month names lexicographically. -/
theorem c7_amended (rows : List SalesRec) :
    List.Sorted (fun a b => monthIndex a.month ≤ monthIndex b.month) (monthlySorted rows) ∧
    (monthlySorted rows).Perm rows := by
  have htrans : ∀ a b c : SalesRec,
      (fun a b => decide (monthIndex a.month ≤ monthIndex b.month)) a b →
      (fun a b => decide (monthIndex a.month ≤ monthIndex b.month)) b c →
      (fun a b => decide (monthIndex a.month ≤ monthIndex b.month)) a c := by
    intro a b c h1 h2
    simp only [decide_eq_true_eq] at h1 h2 ⊢
    exact le_trans h1 h2
  have htotal : ∀ a b : SalesRec,
      ((fun a b => decide (monthIndex a.month ≤ monthIndex b.month)) a b ||
       (fun a b => decide (monthIndex a.month ≤ monthIndex b.month)) b a) := by
    intro a b
    simp only [Bool.or_eq_true, decide_eq_true_eq]
    exact le_total _ _
  have hp := List.sorted_mergeSort htrans htotal rows
  exact ⟨hp.imp (fun h => by simpa using h), List.mergeSort_perm rows _⟩

/-- C9: every year offered in the Comparison Year dropdown (app.py lines
756-757) is strictly greater than the chosen base year, so the two
selected periods can never coincide and can never be reversed. -/
theorem c9_compare_year (years : List String) (base_year c : String)
    (hc : c ∈ compareYearOptions years base_year) : base_year < c ∧ base_year ≠ c := by
  unfold compareYearOptions at hc
  have h := List.of_mem_filter hc
  simp only [pyStrLt, decide_eq_true_eq] at h
  have hlt : base_year < c := by
    rw [String.lt_iff_toList_lt]
    exact h
  exact ⟨hlt, ne_of_lt hlt⟩

/-- C9 witness: with years 2023-2025 and base 2023, the offered year 2024
is strictly above the base. -/
theorem c9_compare_year_witness :
    "2024" ∈ compareYearOptions ["2023", "2024", "2025"] "2023" ∧
    "2023" < "2024" ∧ "2023" ≠ "2024" := by
  have hm : "2024" ∈ compareYearOptions ["2023", "2024", "2025"] "2023" := by
    simp +decide [compareYearOptions, List.mergeSort, List.merge, pyStrLe, pyStrLt, List.filter]
  exact ⟨hm, c9_compare_year ["2023", "2024", "2025"] "2023" "2024" hm⟩

/-- C6: with an empty process memo, running the cached load twice in
sequence returns the same table from the same final state (the second
call re-invokes nothing); when the processed file already exists in the
blob store it is returned with no compute invocation; when it is absent
the compute step runs exactly once, its result is persisted, and that
result is returned (app.py lines 29-41; the persist step follows spec
§4.3 since `process_data.py` is not among the sources). -/
theorem c6_load_data {α : Type} (compute : α) (s : CacheState α) (h : s.memo = none) :
    (load_data compute ((load_data compute s).2)).1 = (load_data compute s).1 ∧
    (load_data compute ((load_data compute s).2)).2 = (load_data compute s).2 ∧
    (∀ t, s.store = some t →
      (load_data compute s).1 = t ∧
      ((load_data compute s).2).computeCount = s.computeCount) ∧
    (s.store = none →
      (load_data compute s).1 = compute ∧
      ((load_data compute s).2).store = some compute ∧
      ((load_data compute s).2).computeCount = s.computeCount + 1) := by
  cases hs : s.store with
  | some t => simp [load_data, h, hs]
  | none => simp [load_data, h, hs]

/-- C6 witness: from a fresh state, two sequential loads compute once and
both return the computed value; from a state whose store already holds a
table, the load returns it with no computation. -/
theorem c6_load_data_witness :
    (load_data 7 (⟨none, none, 0⟩ : CacheState ℕ)).1 = 7 ∧
    ((load_data 7 (⟨none, none, 0⟩ : CacheState ℕ)).2).computeCount = 1 ∧
    (load_data 7 ((load_data 7 (⟨none, none, 0⟩ : CacheState ℕ)).2)).1 = 7 ∧
    ((load_data 7 ((load_data 7 (⟨none, none, 0⟩ : CacheState ℕ)).2)).2).computeCount = 1 ∧
    (load_data 7 (⟨some 5, none, 0⟩ : CacheState ℕ)).1 = 5 ∧
    ((load_data 7 (⟨some 5, none, 0⟩ : CacheState ℕ)).2).computeCount = 0 := by
  have hmiss := c6_load_data 7 (⟨none, none, 0⟩ : CacheState ℕ) rfl
  have hhit := c6_load_data 7 (⟨some 5, none, 0⟩ : CacheState ℕ) rfl
  have h1 := hmiss.2.2.2 rfl
  have h2 := (hhit.2.2.1) 5 rfl
  refine ⟨h1.1, h1.2.2, ?_, ?_, h2.1, h2.2⟩
  · rw [hmiss.1, h1.1]
  · rw [hmiss.2.1, h1.2.2]

/-- C8: reading a table from the blob store yields the `FileNotFoundError`
outcome exactly when the service reports `NoSuchKey` (which over a
`Store` happens exactly when the key is absent), yields the distinct
generic storage error on any other `ClientError` code, and yields the
parsed table on success (s3_utils.py lines 20-31). -/
theorem c8_read_table (backend : String → String → S3Response) (bucket_name file_key : String) :
    ((∃ msg, read_csv_from_s3 backend bucket_name file_key = ReadResult.notFound msg) ↔
      backend bucket_name file_key = S3Response.clientError "NoSuchKey") ∧
    (∀ code, code ≠ "NoSuchKey" → backend bucket_name file_key = S3Response.clientError code →
      read_csv_from_s3 backend bucket_name file_key = ReadResult.storageError code) ∧
    (∀ body t, backend bucket_name file_key = S3Response.ok body → read_csv body = some t →
      read_csv_from_s3 backend bucket_name file_key = ReadResult.table t) ∧
    (∀ st : Store,
      ((∃ msg, read_csv_from_s3 (backendOf st) bucket_name file_key =
          ReadResult.notFound msg) ↔ st bucket_name file_key = none)) := by
  refine ⟨?_, ?_, ?_, ?_⟩
  · constructor
    · rintro ⟨msg, hmsg⟩
      cases hb : backend bucket_name file_key with
      | ok body =>
        simp only [read_csv_from_s3, hb] at hmsg
        cases hrc : read_csv body <;> simp [hrc] at hmsg
      | clientError code =>
        simp only [read_csv_from_s3, hb] at hmsg
        by_cases hcode : code = "NoSuchKey"
        · rw [hcode]
        · simp [hcode] at hmsg
    · intro hb
      refine ⟨"File " ++ file_key ++ " not found in bucket " ++ bucket_name, ?_⟩
      simp [read_csv_from_s3, hb]
  · intro code hcode hb
    simp [read_csv_from_s3, hb, hcode]
  · intro body t hb hrc
    simp [read_csv_from_s3, hb, hrc]
  · intro st
    constructor
    · rintro ⟨msg, hmsg⟩
      cases hk : st bucket_name file_key with
      | some body =>
        simp only [read_csv_from_s3, backendOf, hk] at hmsg
        cases hrc : read_csv body <;> simp [hrc] at hmsg
      | none => rfl
    · intro hk
      refine ⟨"File " ++ file_key ++ " not found in bucket " ++ bucket_name, ?_⟩
      simp [read_csv_from_s3, backendOf, hk]

/-- C8 witness: a non-`NoSuchKey` error code becomes the generic storage
error, a served CSV body becomes the parsed table, and a read against an
empty store yields the not-found outcome. -/
theorem c8_read_table_witness :
    read_csv_from_s3 exBackendDenied "bucket" "key" = ReadResult.storageError "AccessDenied" ∧
    read_csv_from_s3 exBackendCsv "bucket" "key" =
      ReadResult.table ⟨[['A'], ['B']], [[['1'], ['2']]]⟩ ∧
    (∃ msg, read_csv_from_s3 (backendOf exEmptyStore) "bucket" "key" =
      ReadResult.notFound msg) := by
  have h1 := c8_read_table exBackendDenied "bucket" "key"
  have h2 := c8_read_table exBackendCsv "bucket" "key"
  refine ⟨h1.2.1 "AccessDenied" (by decide) rfl, ?_, (h1.2.2.2 exEmptyStore).mpr rfl⟩
  exact h2.2.2.1 "A,B\n1,2\n" ⟨[['A'], ['B']], [[['1'], ['2']]]⟩ rfl (by decide)

/-- Splitting never yields the empty list of pieces. -/
theorem splitOnChar_ne_nil (sep : Char) : ∀ l : List Char, splitOnChar sep l ≠ []
  | [] => by simp [splitOnChar]
  | c :: cs => by
    simp only [splitOnChar]
    cases h : splitOnChar sep cs with
    | nil => simp
    | cons a t => dsimp only; split <;> simp

/-- Splitting a separator-free list yields that list as its single piece. -/
theorem splitOnChar_of_not_mem (sep : Char) :
    ∀ l : List Char, sep ∉ l → splitOnChar sep l = [l]
  | [], _ => rfl
  | c :: cs, h => by
    have hc : c ≠ sep := fun e => h (by rw [e]; exact List.mem_cons_self _ _)
    have hcs : sep ∉ cs := fun e => h (List.mem_cons_of_mem _ e)
    simp only [splitOnChar, splitOnChar_of_not_mem sep cs hcs]
    simp [hc]

/-- Splitting after a separator-free prefix peels that prefix off. -/
theorem splitOnChar_append (sep : Char) :
    ∀ (l₁ l₂ : List Char), sep ∉ l₁ →
      splitOnChar sep (l₁ ++ sep :: l₂) = l₁ :: splitOnChar sep l₂
  | [], l₂, _ => by
    simp only [List.nil_append, splitOnChar]
    cases h : splitOnChar sep l₂ with
    | nil => exact absurd h (splitOnChar_ne_nil sep l₂)
    | cons a t => simp
  | c :: cs, l₂, h => by
    have hc : c ≠ sep := fun e => h (by rw [e]; exact List.mem_cons_self _ _)
    have hcs : sep ∉ cs := fun e => h (List.mem_cons_of_mem _ e)
    simp only [List.cons_append, splitOnChar, List.append_eq]
    rw [splitOnChar_append sep cs l₂ hcs]
    simp [hc]

/-- Characters of a joined line are the separator or cell characters. -/
theorem mem_joinSep (sep : Char) :
    ∀ (cells : List (List Char)) (x : Char), x ∈ joinSep sep cells →
      x = sep ∨ ∃ c ∈ cells, x ∈ c
  | [], x, h => absurd h (List.not_mem_nil x)
  | [c], x, h => Or.inr ⟨c, List.mem_singleton.mpr rfl, h⟩
  | c :: c2 :: cs, x, h => by
    simp only [joinSep, List.mem_append, List.mem_cons] at h
    rcases h with h | h | h
    · exact Or.inr ⟨c, List.mem_cons_self _ _, h⟩
    · exact Or.inl h
    · rcases mem_joinSep sep (c2 :: cs) x h with h | ⟨d, hd, hx⟩
      · exact Or.inl h
      · exact Or.inr ⟨d, List.mem_cons_of_mem _ hd, hx⟩

/-- Splitting inverts joining when no cell contains the separator. -/
theorem splitOnChar_joinSep (sep : Char) :
    ∀ cells : List (List Char), cells ≠ [] → (∀ c ∈ cells, sep ∉ c) →
      splitOnChar sep (joinSep sep cells) = cells
  | [], h, _ => absurd rfl h
  | [c], _, hc => splitOnChar_of_not_mem sep c (hc c (List.mem_singleton.mpr rfl))
  | c :: c2 :: cs, _, hc => by
    simp only [joinSep]
    rw [splitOnChar_append sep c _ (hc c (List.mem_cons_self _ _))]
    rw [splitOnChar_joinSep sep (c2 :: cs) (by simp)
      (fun d hd => hc d (List.mem_cons_of_mem _ hd))]

/-- Splitting a block of separator-terminated lines recovers the lines,
plus one empty trailing piece for the final terminator. -/
theorem splitOnChar_lines (sep : Char) :
    ∀ ls : List (List Char), (∀ l ∈ ls, sep ∉ l) →
      splitOnChar sep ((ls.map (fun l => l ++ [sep])).flatten) = ls ++ [[]]
  | [], _ => rfl
  | l :: rest, h => by
    simp only [List.map_cons, List.flatten_cons]
    rw [List.append_assoc, List.singleton_append]
    rw [splitOnChar_append sep l _ (h l (List.mem_cons_self _ _))]
    rw [splitOnChar_lines sep rest (fun d hd => h d (List.mem_cons_of_mem _ hd))]
    rfl

/-- C10: for a table whose cells contain no separator characters and whose
lines are nonempty, saving to a bucket/key with `save_df_to_s3`
(`to_csv(index=False)`, s3_utils.py lines 33-45) and reading the same
bucket/key back with `read_csv_from_s3` (lines 20-31) returns exactly
the original table: same columns, same rows, same row order. -/
theorem c10_roundtrip (st : Store) (bucket_name file_key : String) (t : CsvTable)
    (hh : t.header ≠ [])
    (hhc : ∀ c ∈ t.header, (',') ∉ c ∧ ('\n') ∉ c)
    (hhl : joinSep ',' t.header ≠ [])
    (hr : ∀ r ∈ t.rows, r ≠ [] ∧ (∀ c ∈ r, (',') ∉ c ∧ ('\n') ∉ c) ∧ joinSep ',' r ≠ []) :
    read_csv_from_s3 (backendOf (save_df_to_s3 t st bucket_name file_key))
      bucket_name file_key = ReadResult.table t := by
  have hget : backendOf (save_df_to_s3 t st bucket_name file_key) bucket_name file_key
      = S3Response.ok (to_csv t) := by
    simp [backendOf, save_df_to_s3, putObject]
  have hlines : ∀ l ∈ (joinSep ',' t.header :: t.rows.map (joinSep ',')), ('\n') ∉ l := by
    intro l hl hnl
    rcases List.mem_cons.mp hl with rfl | hl
    · rcases mem_joinSep ',' t.header '\n' hnl with h | ⟨c, hc, hx⟩
      · exact absurd h (by decide)
      · exact (hhc c hc).2 hx
    · rcases List.mem_map.mp hl with ⟨r, hrr, rfl⟩
      rcases mem_joinSep ',' r '\n' hnl with h | ⟨c, hc, hx⟩
      · exact absurd h (by decide)
      · exact ((hr r hrr).2.1 c hc).2 hx
  have hdata : (to_csv t).data =
      ((joinSep ',' t.header :: t.rows.map (joinSep ',')).map (fun l => l ++ ['\n'])).flatten :=
    rfl
  have hsplit := splitOnChar_lines '\n' (joinSep ',' t.header :: t.rows.map (joinSep ',')) hlines
  have hfil : ((joinSep ',' t.header :: t.rows.map (joinSep ',')) ++ [[]]).filter
      (fun l => l ≠ []) = joinSep ',' t.header :: t.rows.map (joinSep ',') := by
    rw [List.filter_append]
    have h1 : (joinSep ',' t.header :: t.rows.map (joinSep ',')).filter (fun l => l ≠ []) =
        joinSep ',' t.header :: t.rows.map (joinSep ',') :=
      List.filter_eq_self.mpr (fun a ha => by
        rcases List.mem_cons.mp ha with rfl | ha
        · simpa using hhl
        · rcases List.mem_map.mp ha with ⟨r, hrr, rfl⟩
          simpa using (hr r hrr).2.2)
    rw [h1]
    simp
  have hheader : splitOnChar ',' (joinSep ',' t.header) = t.header :=
    splitOnChar_joinSep ',' t.header hh (fun c hc => (hhc c hc).1)
  have hrows : (t.rows.map (joinSep ',')).map (splitOnChar ',') = t.rows := by
    rw [List.map_map]
    calc t.rows.map (splitOnChar ',' ∘ joinSep ',')
        = t.rows.map id :=
          List.map_congr_left (fun r hrr =>
            splitOnChar_joinSep ',' r (hr r hrr).1
              (fun c hc => ((hr r hrr).2.1 c hc).1))
      _ = t.rows := List.map_id _
  have hread : read_csv (to_csv t) = some t := by
    rw [read_csv, hdata, hsplit, hfil]
    dsimp only
    rw [hheader, hrows]
  rw [read_csv_from_s3, hget]
  simp only [hread]

/-- C10 witness: a concrete 2-column, 1-row table survives the
save-then-read round trip through an initially empty store. -/
theorem c10_roundtrip_witness :
    read_csv_from_s3
      (backendOf (save_df_to_s3 ⟨[['A'], ['B']], [[['1'], ['2']]]⟩ exEmptyStore "bucket" "key"))
      "bucket" "key" = ReadResult.table ⟨[['A'], ['B']], [[['1'], ['2']]]⟩ :=
  c10_roundtrip exEmptyStore "bucket" "key" ⟨[['A'], ['B']], [[['1'], ['2']]]⟩
    (by decide) (by decide) (by decide) (by decide)

end Dashboard
